import Mathlib

/-!
Verification of the Intergalactic Trade Network settlement pipeline.

The development shallowly embeds the event-driven settlement code: the
`tradeInitiated` handler (create Cargo, `$inc`/`$addToSet` the buyer
inventory, `$inc`/`$pullAll` the seller inventory, catch-all error logging)
and the `updateCargo` controller (`findOneAndUpdate` by `shipmentId`,
404 / 200 + `cargoUpdated` emission / 500).  Store writes that may fail are
driven by an explicit fault oracle so that behaviour under a failing
mid-sequence write is expressible.
-/

namespace InterGalCirc

/-- A trade event payload: `transactionId`, seller and buyer station ids and
the ordered list of item identifiers. -/
structure Trade where
  transactionId : String
  seller : String
  buyer : String
  items : List String
deriving Repr, DecidableEq

/-- A cargo record as built by the handler: `shipmentId`, `origin`,
`destination`, `items`, `status` and the `ETA` timestamp (milliseconds). -/
structure Cargo where
  shipmentId : String
  origin : String
  destination : String
  items : List String
  status : String
  eta : Nat
deriving Repr, DecidableEq

/-- An inventory record keyed by `stationId`, with an integer `quantity`
and the list of held item identifiers. -/
structure Inventory where
  stationId : String
  quantity : Int
  items : List String
deriving Repr, DecidableEq

/-- The durable store: the cargo collection and the inventory collection. -/
structure Store where
  cargos : List Cargo
  inventories : List Inventory
deriving Repr, DecidableEq

/-- Domain events that the code can emit on its event buses. -/
inductive DomainEvent where
  | cargoCreated (c : Cargo)
  | inventoryAdjusted (stationId : String)
  | cargoUpdated (c : Cargo)
deriving Repr, DecidableEq

/-- MongoDB `$addToSet` with `$each`: append each listed value that is not
already present, preserving order and never inserting a duplicate. -/
def addToSet (s : List String) (xs : List String) : List String :=
  xs.foldl (fun acc x => if x ∈ acc then acc else acc ++ [x]) s

/-- MongoDB `$pullAll`: remove every occurrence of each listed value. -/
def pullAll (s : List String) (xs : List String) : List String :=
  s.filter (fun x => decide (x ∉ xs))

/-- MongoDB update semantics on a collection: apply `g` to the first record
matching `p`; if no record matches, the collection is unchanged. -/
def updateFirst (p : Inventory → Bool) (g : Inventory → Inventory) :
    List Inventory → List Inventory
  | [] => []
  | i :: rest => if p i then g i :: rest else i :: updateFirst p g rest

/-- The call `Inventory.updateOne({stationId}, update)`: update the first
inventory record with the given `stationId` (no upsert: a missing record is
a no-op). -/
def Store.updateOneInv (s : Store) (stId : String) (g : Inventory → Inventory) : Store :=
  { s with inventories := updateFirst (fun i => i.stationId == stId) g s.inventories }

/-- The cargo literal `new Cargo({...})` of the handler: `shipmentId` is
`"shipment-" ++ transactionId`, origin/destination are seller/buyer, items
are the trade items, status is `"pending"` and ETA is now plus seven days
in milliseconds. -/
def mkCargo (now : Nat) (t : Trade) : Cargo :=
  { shipmentId := "shipment-" ++ t.transactionId
    origin := t.seller
    destination := t.buyer
    items := t.items
    status := "pending"
    eta := now + 7 * 24 * 60 * 60 * 1000 }

/-- Fault oracle for the three store writes performed by the handler: each
flag makes the corresponding write throw instead of applying. -/
structure Faults where
  failSave : Bool
  failBuyer : Bool
  failSeller : Bool
deriving Repr, DecidableEq

/-- The oracle under which every store write succeeds. -/
def noFaults : Faults := ⟨false, false, false⟩

/-- The oracle under which only the seller inventory write throws. -/
def sellerWriteFault : Faults := ⟨false, false, true⟩

/-- Modelled from the spec: this is `newCargo.save()`, but the Mongoose
`Cargo` model (`model/Cargo.ts`) is not among the sources; the spec states
`shipmentId` is unique, so saving a cargo whose `shipmentId` already exists
in the store fails with a duplicate-key error, and otherwise the record is
appended.  An injected fault also makes the save throw. -/
def saveCargo (f : Faults) (s : Store) (c : Cargo) : Option Store :=
  if f.failSave then none
  else if s.cargos.any (fun c0 => c0.shipmentId == c.shipmentId) then none
  else some { s with cargos := s.cargos ++ [c] }

/-- The buyer update document: `$inc quantity by items.length`,
`$addToSet items with $each trade.items`. -/
def buyerAdjust (t : Trade) (i : Inventory) : Inventory :=
  { i with quantity := i.quantity + t.items.length, items := addToSet i.items t.items }

/-- The seller update document: `$inc quantity by -items.length`,
`$pullAll items trade.items`. -/
def sellerAdjust (t : Trade) (i : Inventory) : Inventory :=
  { i with quantity := i.quantity - t.items.length, items := pullAll i.items t.items }

/-- The buyer `Inventory.updateOne` call, possibly thrown by the oracle. -/
def updateBuyerInv (f : Faults) (s : Store) (t : Trade) : Option Store :=
  if f.failBuyer then none else some (s.updateOneInv t.buyer (buyerAdjust t))

/-- The seller `Inventory.updateOne` call, possibly thrown by the oracle. -/
def updateSellerInv (f : Faults) (s : Store) (t : Trade) : Option Store :=
  if f.failSeller then none else some (s.updateOneInv t.seller (sellerAdjust t))

/-- The `try` block of the `tradeInitiated` handler, in source order:
save the cargo, update the buyer inventory, update the seller inventory.
The first write that throws aborts the block, returning the store reached
so far together with the thrown error. -/
def tradeBody (now : Nat) (f : Faults) (s : Store) (t : Trade) :
    Store × Option String :=
  match saveCargo f s (mkCargo now t) with
  | none => (s, some "cargo save failed")
  | some s1 =>
    match updateBuyerInv f s1 t with
    | none => (s1, some "buyer inventory update failed")
    | some s2 =>
      match updateSellerInv f s2 t with
      | none => (s2, some "seller inventory update failed")
      | some s3 => (s3, none)

/-- The observable outcome of one `tradeInitiated` handler invocation:
the resulting store, the domain events the handler published, which console
line was written, and the exception (if any) that escaped to the caller. -/
structure HandlerResult where
  store : Store
  emitted : List DomainEvent
  errorLogged : Bool
  successLogged : Bool
  propagated : Option String
deriving Repr, DecidableEq

/-- The handler that `tradeEventEmitter.on` registers for the trade
initiation topic: run the body; on success `console.log` the success line,
on a thrown error `console.error` it.  Both branches are inside the
`try`/`catch` of the handler, so nothing is rethrown and no derived domain
event is published on either path. -/
def onTradeInitiated (now : Nat) (f : Faults) (s : Store) (t : Trade) :
    HandlerResult :=
  match tradeBody now f s t with
  | (s1, some _) =>
    { store := s1, emitted := [], errorLogged := true, successLogged := false
      propagated := none }
  | (s1, none) =>
    { store := s1, emitted := [], errorLogged := false, successLogged := true
      propagated := none }

/-- Find the inventory record of a station. -/
def findInv (s : Store) (stId : String) : Option Inventory :=
  s.inventories.find? (fun i => i.stationId == stId)

/-- Quantity held at a station (0 when the station has no record). -/
def qty (s : Store) (stId : String) : Int :=
  match findInv s stId with
  | some i => i.quantity
  | none => 0

/-- Item list held at a station (empty when the station has no record). -/
def invItems (s : Store) (stId : String) : List String :=
  match findInv s stId with
  | some i => i.items
  | none => []

/-- Number of cargo records carrying the given `shipmentId`. -/
def cargoCount (s : Store) (sid : String) : Nat :=
  (s.cargos.filter (fun c => c.shipmentId == sid)).length

/-- Find the cargo record with the given `shipmentId`. -/
def findCargo (s : Store) (sid : String) : Option Cargo :=
  s.cargos.find? (fun c => c.shipmentId == sid)

/-- Semantics of `findOneAndUpdate` on the cargo collection: apply `g` to
the first record matching `p`. -/
def replaceFirstCargo (p : Cargo → Bool) (g : Cargo → Cargo) :
    List Cargo → List Cargo
  | [] => []
  | c :: rest => if p c then g c :: rest else c :: replaceFirstCargo p g rest

/-- The observable outcome of one `updateCargo` request: HTTP status, the
events emitted on the cargo bus, and the resulting store. -/
structure UpdateCargoResult where
  status : Nat
  emitted : List DomainEvent
  store : Store
deriving Repr, DecidableEq

/-- The `updateCargo` controller: `findOneAndUpdate` by `shipmentId` with
`$set updateData` (embedded as the record transformer `upd`) and
`new: true`.  A missing record answers 404 with no emission; success emits
one `cargoUpdated` event carrying the post-update record and answers 200; a
thrown update error (fault oracle `fault`) is caught and answers 500 with no
emission and no store change. -/
def updateCargo (fault : Bool) (upd : Cargo → Cargo) (s : Store) (sid : String) :
    UpdateCargoResult :=
  if fault then { status := 500, emitted := [], store := s }
  else
    match findCargo s sid with
    | none => { status := 404, emitted := [], store := s }
    | some c =>
      { status := 200
        emitted := [DomainEvent.cargoUpdated (upd c)]
        store := { s with
          cargos := replaceFirstCargo (fun c0 => c0.shipmentId == sid) upd s.cargos } }

/-- The worked example trade of the spec: `t1` from `S1` to `B1` moving
`widget-1` and `widget-2`. -/
def t1 : Trade :=
  { transactionId := "t1", seller := "S1", buyer := "B1"
    items := ["widget-1", "widget-2"] }

/-- The store of the success example in the spec: `S1` holds three widgets,
`B1` holds nothing, no cargo yet. -/
def s0good : Store :=
  { cargos := []
    inventories :=
      [ { stationId := "S1", quantity := 3
          items := ["widget-1", "widget-2", "widget-3"] }
      , { stationId := "B1", quantity := 0, items := [] } ] }

/-- The store of the failure example in the spec: `S1` holds only `widget-1`,
so it lacks `widget-2` required by `t1`. -/
def s0bad : Store :=
  { cargos := []
    inventories :=
      [ { stationId := "S1", quantity := 1, items := ["widget-1"] }
      , { stationId := "B1", quantity := 0, items := [] } ] }

/-- Every inventory record of the store has a duplicate-free item list. -/
def Store.invNodup (s : Store) : Prop :=
  ∀ i ∈ s.inventories, i.items.Nodup

/-- The cargo record produced by settling `t1` at time 0. -/
def c0 : Cargo := mkCargo 0 t1

/-- A store already holding the cargo record `c0`. -/
def sWithCargo : Store := { cargos := [c0], inventories := [] }

/-- Marks the status of a cargo as in transit; a sample `updateData` body. -/
def markTransit (c : Cargo) : Cargo := { c with status := "in-transit" }

/-! ### Helper lemmas -/

theorem updateOneInv_cargos (s : Store) (stId : String) (g : Inventory → Inventory) :
    (s.updateOneInv stId g).cargos = s.cargos := rfl

/-- Closed-form description of the handler body: the first of the four
failure conditions that fires determines the store reached and the error. -/
theorem tradeBody_eq (now : Nat) (f : Faults) (s : Store) (t : Trade) :
    tradeBody now f s t =
      if f.failSave = true then (s, some "cargo save failed")
      else if s.cargos.any (fun c0 => c0.shipmentId == (mkCargo now t).shipmentId) = true then
        (s, some "cargo save failed")
      else if f.failBuyer = true then
        ({ s with cargos := s.cargos ++ [mkCargo now t] }, some "buyer inventory update failed")
      else if f.failSeller = true then
        (Store.updateOneInv { s with cargos := s.cargos ++ [mkCargo now t] }
          t.buyer (buyerAdjust t), some "seller inventory update failed")
      else
        (Store.updateOneInv (Store.updateOneInv { s with cargos := s.cargos ++ [mkCargo now t] }
          t.buyer (buyerAdjust t)) t.seller (sellerAdjust t), none) := by
  unfold tradeBody saveCargo updateBuyerInv updateSellerInv
  split_ifs <;> simp_all

/-- A success log line means no write failed and no duplicate cargo existed. -/
theorem success_conditions (now : Nat) (f : Faults) (s : Store) (t : Trade)
    (h : (onTradeInitiated now f s t).successLogged = true) :
    f.failSave = false ∧
    s.cargos.any (fun c0 => c0.shipmentId == (mkCargo now t).shipmentId) = false ∧
    f.failBuyer = false ∧ f.failSeller = false := by
  unfold onTradeInitiated at h
  rw [tradeBody_eq] at h
  split_ifs at h <;> simp_all

/-- On success the resulting store is: cargo appended, then buyer update,
then seller update. -/
theorem store_of_success (now : Nat) (f : Faults) (s : Store) (t : Trade)
    (h : (onTradeInitiated now f s t).successLogged = true) :
    (onTradeInitiated now f s t).store =
      Store.updateOneInv (Store.updateOneInv { s with cargos := s.cargos ++ [mkCargo now t] }
        t.buyer (buyerAdjust t)) t.seller (sellerAdjust t) := by
  unfold onTradeInitiated at *
  rw [tradeBody_eq] at *
  split_ifs at * <;> simp_all

theorem find?_updateFirst_of_ne (p q : Inventory → Bool) (g : Inventory → Inventory)
    (l : List Inventory) (hq : ∀ i, q (g i) = q i) (hpq : ∀ i, p i = true → q i = false) :
    (updateFirst p g l).find? q = l.find? q := by
  induction l with
  | nil => rfl
  | cons i rest ih =>
    by_cases hp : p i = true
    · simp only [updateFirst, hp, if_true]
      have hqi : q i = false := hpq i hp
      have hqg : q (g i) = false := by rw [hq]; exact hqi
      simp [List.find?_cons, hqi, hqg]
    · simp only [updateFirst, hp, if_false, Bool.not_eq_true] at *
      by_cases hqi : q i = true
      · simp [List.find?_cons, hqi]
      · simp only [Bool.not_eq_true] at hqi
        simp [List.find?_cons, hqi, ih]

theorem find?_updateFirst_self (p : Inventory → Bool) (g : Inventory → Inventory)
    (l : List Inventory) (hg : ∀ i, p (g i) = p i) :
    (updateFirst p g l).find? p = (l.find? p).map g := by
  induction l with
  | nil => rfl
  | cons i rest ih =>
    by_cases hp : p i = true
    · have hpg : p (g i) = true := by rw [hg]; exact hp
      simp [updateFirst, hp, List.find?_cons, hpg]
    · simp only [Bool.not_eq_true] at hp
      simp [updateFirst, hp, List.find?_cons, ih]

theorem stationId_buyerAdjust (t : Trade) (i : Inventory) :
    (buyerAdjust t i).stationId = i.stationId := rfl

theorem stationId_sellerAdjust (t : Trade) (i : Inventory) :
    (sellerAdjust t i).stationId = i.stationId := rfl

theorem findInv_updateOneInv_same (s : Store) (st : String) (g : Inventory → Inventory)
    (hg : ∀ i, (g i).stationId = i.stationId) :
    findInv (s.updateOneInv st g) st = (findInv s st).map g := by
  unfold findInv Store.updateOneInv
  exact find?_updateFirst_self _ g s.inventories (fun i => by simp [hg i])

theorem findInv_updateOneInv_ne (s : Store) (st st' : String) (g : Inventory → Inventory)
    (hg : ∀ i, (g i).stationId = i.stationId) (hne : st ≠ st') :
    findInv (s.updateOneInv st g) st' = findInv s st' := by
  unfold findInv Store.updateOneInv
  refine find?_updateFirst_of_ne _ _ g s.inventories (fun i => by simp [hg i]) ?_
  intro i hi
  simp only [beq_iff_eq] at hi
  simp [hi, hne]

theorem findInv_cargos_irrelevant (s : Store) (cs : List Cargo) (st : String) :
    findInv { s with cargos := cs } st = findInv s st := rfl

theorem updateFirst_forall {P : Inventory → Prop} (p : Inventory → Bool)
    (g : Inventory → Inventory) (hg : ∀ i, P i → P (g i)) :
    ∀ l : List Inventory, (∀ i ∈ l, P i) → ∀ i ∈ updateFirst p g l, P i := by
  intro l
  induction l with
  | nil => intro _ i hi; cases hi
  | cons j rest ih =>
    intro hl i hi
    by_cases hp : p j = true
    · rw [updateFirst, if_pos hp] at hi
      cases List.mem_cons.mp hi with
      | inl h => rw [h]; exact hg j (hl j (List.mem_cons_self j rest))
      | inr h => exact hl i (List.mem_cons_of_mem j h)
    · rw [updateFirst, if_neg hp] at hi
      cases List.mem_cons.mp hi with
      | inl h => rw [h]; exact hl j (List.mem_cons_self j rest)
      | inr h => exact ih (fun k hk => hl k (List.mem_cons_of_mem j hk)) i h

theorem addToSet_nodup (xs : List String) :
    ∀ s : List String, s.Nodup → (addToSet s xs).Nodup := by
  induction xs with
  | nil => intro s hs; exact hs
  | cons x xs ih =>
    intro s hs
    have hstep : (if x ∈ s then s else s ++ [x]).Nodup := by
      by_cases hx : x ∈ s
      · simpa [hx] using hs
      · simp [hx, List.nodup_append, hs, List.disjoint_singleton]
    have : addToSet s (x :: xs) = addToSet (if x ∈ s then s else s ++ [x]) xs := by
      simp [addToSet, List.foldl_cons]
    rw [this]
    exact ih _ hstep

theorem pullAll_nodup (s xs : List String) (h : s.Nodup) : (pullAll s xs).Nodup :=
  h.filter _

theorem invNodup_updateOneInv (s : Store) (st : String) (g : Inventory → Inventory)
    (hg : ∀ i, i.items.Nodup → (g i).items.Nodup) (h : s.invNodup) :
    (s.updateOneInv st g).invNodup := by
  intro i hi
  exact updateFirst_forall (fun i => i.stationId == st) g
    (fun j hj => hg j hj) s.inventories (fun j hj => h j hj) i hi

/-! ### Claim theorems -/

/-- C1: the claim says a trade whose seller lacks the required items must
abort with no Cargo, no inventory mutation and an observable failure
signal.  Evaluating the handler at the failure example of the spec (seller
`S1` holds only `widget-1` while the trade moves two widgets): the code
creates the Cargo, credits the buyer, debits the seller to quantity `-1`,
emits nothing and writes the success log line, so the failure is invisible. -/
theorem c1_missing_seller_check_at_failing_input :
    (onTradeInitiated 0 noFaults s0bad t1).store.cargos = [mkCargo 0 t1] ∧
    qty (onTradeInitiated 0 noFaults s0bad t1).store "S1" = -1 ∧
    invItems (onTradeInitiated 0 noFaults s0bad t1).store "B1"
      = ["widget-1", "widget-2"] ∧
    (onTradeInitiated 0 noFaults s0bad t1).emitted = [] ∧
    (onTradeInitiated 0 noFaults s0bad t1).errorLogged = false ∧
    (onTradeInitiated 0 noFaults s0bad t1).successLogged = true := by
  decide

/-- C3: the claim says a seller quantity never goes below zero and a
trade with an under-stocked seller changes nothing.  Starting from the
non-negative store of the failure example in the spec, one processed trade
drives `S1` to quantity `-1` and does mutate the store. -/
theorem c3_negative_inventory_at_failing_input :
    qty s0bad "S1" = 1 ∧ qty s0bad "B1" = 0 ∧
    qty (onTradeInitiated 0 noFaults s0bad t1).store "S1" = -1 ∧
    (onTradeInitiated 0 noFaults s0bad t1).store ≠ s0bad := by
  decide

/-- C4: the claim says a store write failure after the unit of work begins
leaves none of the three writes applied and surfaces a fatal error.  When
the seller inventory write fails after the cargo save and the buyer update
succeeded, the code leaves the cargo created and the buyer credited while
the seller is untouched — a half-updated state — and the error is only
logged (`errorLogged`), never published or rethrown. -/
theorem c4_half_applied_on_store_failure :
    (onTradeInitiated 0 sellerWriteFault s0good t1).store.cargos = [mkCargo 0 t1] ∧
    qty (onTradeInitiated 0 sellerWriteFault s0good t1).store "B1" = 2 ∧
    qty (onTradeInitiated 0 sellerWriteFault s0good t1).store "S1" = 3 ∧
    (onTradeInitiated 0 sellerWriteFault s0good t1).emitted = [] ∧
    (onTradeInitiated 0 sellerWriteFault s0good t1).errorLogged = true ∧
    (onTradeInitiated 0 sellerWriteFault s0good t1).propagated = none := by
  decide

/-- C7: the claim says a successful settlement publishes `cargoCreated`
followed by the `inventoryAdjusted` events.  The handler publishes no
domain event at all, on any input — in particular on the success
example of the spec, which does settle successfully. -/
theorem c7_no_derived_events_published :
    (onTradeInitiated 0 noFaults s0good t1).successLogged = true ∧
    ∀ (now : Nat) (f : Faults) (s : Store) (t : Trade),
      (onTradeInitiated now f s t).emitted = [] := by
  refine ⟨by decide, ?_⟩
  intro now f s t
  unfold onTradeInitiated
  split <;> rfl

/-- C10: the whole handler body sits inside `try`/`catch` whose catch
clause only logs, so no exception ever escapes to the emitter: for every
trade, store and write-fault combination the handler propagates nothing. -/
theorem trade_handler_never_propagates (now : Nat) (f : Faults) (s : Store) (t : Trade) :
    (onTradeInitiated now f s t).propagated = none := by
  unfold onTradeInitiated
  split <;> rfl

/-- C5: every successfully settled trade appends exactly one cargo record
whose `shipmentId` is `"shipment-" ++ transactionId`, whose origin and
destination are the seller and buyer of the trade, whose items are the
trade items, whose status is `"pending"` and whose ETA is the creation time plus
the fixed seven-day transit window. -/
theorem settled_cargo_record_shape (now : Nat) (f : Faults) (s : Store) (t : Trade)
    (h : (onTradeInitiated now f s t).successLogged = true) :
    (onTradeInitiated now f s t).store.cargos =
      s.cargos ++ [{ shipmentId := "shipment-" ++ t.transactionId
                     origin := t.seller
                     destination := t.buyer
                     items := t.items
                     status := "pending"
                     eta := now + 7 * 24 * 60 * 60 * 1000 }] := by
  rw [store_of_success now f s t h]
  rfl

/-- Witness for C5 at the success example of the spec. -/
theorem settled_cargo_record_shape_witness :
    (onTradeInitiated 0 noFaults s0good t1).store.cargos =
      [{ shipmentId := "shipment-t1", origin := "S1", destination := "B1"
         items := ["widget-1", "widget-2"], status := "pending"
         eta := 604800000 }] :=
  (settled_cargo_record_shape 0 noFaults s0good t1 (by decide)).trans (by decide)

/-- C2: settlement is idempotent under the unique-`shipmentId` store model.
If the first processing of a trade succeeded, the resulting store holds
exactly one cargo record with the derived `shipmentId`, and replaying the
same event (same `transactionId`, any later clock) leaves the store
unchanged — the duplicate cargo save fails before any inventory write, so
the inventory adjustments are applied exactly once — and emits nothing. -/
theorem settlement_idempotent (now now2 : Nat) (s : Store) (t : Trade)
    (h : (onTradeInitiated now noFaults s t).successLogged = true) :
    (onTradeInitiated now2 noFaults (onTradeInitiated now noFaults s t).store t).store
      = (onTradeInitiated now noFaults s t).store ∧
    (onTradeInitiated now2 noFaults (onTradeInitiated now noFaults s t).store t).emitted
      = [] ∧
    cargoCount (onTradeInitiated now noFaults s t).store
      ("shipment-" ++ t.transactionId) = 1 := by
  obtain ⟨-, hany, -, -⟩ := success_conditions now noFaults s t h
  have hstore := store_of_success now noFaults s t h
  have hcargos : (onTradeInitiated now noFaults s t).store.cargos
      = s.cargos ++ [mkCargo now t] := by
    rw [hstore]; rfl
  have hany2 : ((onTradeInitiated now noFaults s t).store).cargos.any
      (fun c0 => c0.shipmentId == (mkCargo now2 t).shipmentId) = true := by
    rw [hcargos]
    simp [List.any_append, mkCargo]
  have h2 : onTradeInitiated now2 noFaults (onTradeInitiated now noFaults s t).store t
      = { store := (onTradeInitiated now noFaults s t).store, emitted := []
          errorLogged := true, successLogged := false, propagated := none } := by
    revert hany2
    generalize (onTradeInitiated now noFaults s t).store = s1
    intro hany2
    unfold onTradeInitiated
    rw [tradeBody_eq]
    rw [if_neg (by simp [noFaults]), if_pos hany2]
  refine ⟨by rw [h2], by rw [h2], ?_⟩
  have hnone : ∀ c ∈ s.cargos, ¬(c.shipmentId == "shipment-" ++ t.transactionId) = true := by
    intro c hc
    have := List.any_eq_false.mp hany c hc
    simpa [mkCargo] using this
  unfold cargoCount
  rw [hcargos, List.filter_append]
  rw [List.filter_eq_nil_iff.mpr hnone]
  simp [mkCargo]

/-- Witness for C2 at the success example of the spec, replayed at a later
clock. -/
theorem settlement_idempotent_witness :
    (onTradeInitiated 5 noFaults (onTradeInitiated 0 noFaults s0good t1).store t1).store
      = (onTradeInitiated 0 noFaults s0good t1).store ∧
    (onTradeInitiated 5 noFaults (onTradeInitiated 0 noFaults s0good t1).store t1).emitted
      = [] ∧
    cargoCount (onTradeInitiated 0 noFaults s0good t1).store "shipment-t1" = 1 :=
  settlement_idempotent 0 5 s0good t1 (by decide)

/-- C6: conservation of quantity.  For a successfully settled trade between
two distinct stations that both have inventory records, and whose item list
is duplicate-free (so its length is the size of the item set), the seller
quantity drops by exactly the number of traded items, the buyer quantity rises by
the same number, and the total over seller and buyer is unchanged. -/
theorem settlement_conserves_quantity (now : Nat) (f : Faults) (s : Store) (t : Trade)
    (hne : t.seller ≠ t.buyer)
    (hs : (findInv s t.seller).isSome = true)
    (hb : (findInv s t.buyer).isSome = true)
    (hnd : t.items.Nodup)
    (h : (onTradeInitiated now f s t).successLogged = true) :
    qty (onTradeInitiated now f s t).store t.seller
        = qty s t.seller - t.items.length ∧
    qty (onTradeInitiated now f s t).store t.buyer
        = qty s t.buyer + t.items.length ∧
    qty (onTradeInitiated now f s t).store t.seller
        + qty (onTradeInitiated now f s t).store t.buyer
      = qty s t.seller + qty s t.buyer := by
  obtain ⟨si, hsi⟩ := Option.isSome_iff_exists.mp hs
  obtain ⟨bi, hbi⟩ := Option.isSome_iff_exists.mp hb
  have hstore := store_of_success now f s t h
  have hscs : findInv { s with cargos := s.cargos ++ [mkCargo now t] } t.seller = some si := hsi
  have hscb : findInv { s with cargos := s.cargos ++ [mkCargo now t] } t.buyer = some bi := hbi
  have h1s : findInv (Store.updateOneInv { s with cargos := s.cargos ++ [mkCargo now t] }
      t.buyer (buyerAdjust t)) t.seller = some si := by
    rw [findInv_updateOneInv_ne _ _ _ _ (stationId_buyerAdjust t) (Ne.symm hne)]
    exact hscs
  have h1b : findInv (Store.updateOneInv { s with cargos := s.cargos ++ [mkCargo now t] }
      t.buyer (buyerAdjust t)) t.buyer = some (buyerAdjust t bi) := by
    rw [findInv_updateOneInv_same _ _ _ (stationId_buyerAdjust t), hscb]
    rfl
  have h2s : findInv (onTradeInitiated now f s t).store t.seller
      = some (sellerAdjust t si) := by
    rw [hstore, findInv_updateOneInv_same _ _ _ (stationId_sellerAdjust t), h1s]
    rfl
  have h2b : findInv (onTradeInitiated now f s t).store t.buyer
      = some (buyerAdjust t bi) := by
    rw [hstore, findInv_updateOneInv_ne _ _ _ _ (stationId_sellerAdjust t) hne]
    exact h1b
  have e1 : qty (onTradeInitiated now f s t).store t.seller
      = qty s t.seller - t.items.length := by
    simp [qty, h2s, hsi, sellerAdjust]
  have e2 : qty (onTradeInitiated now f s t).store t.buyer
      = qty s t.buyer + t.items.length := by
    simp [qty, h2b, hbi, buyerAdjust]
  refine ⟨e1, e2, ?_⟩
  rw [e1, e2]
  ring

/-- Witness for C6 at the success example of the spec: `S1` drops from 3 to 1,
`B1` rises from 0 to 2, and the total stays 3. -/
theorem settlement_conserves_quantity_witness :
    qty (onTradeInitiated 0 noFaults s0good t1).store "S1"
        = qty s0good "S1" - (2 : Int) ∧
    qty (onTradeInitiated 0 noFaults s0good t1).store "B1"
        = qty s0good "B1" + (2 : Int) ∧
    qty (onTradeInitiated 0 noFaults s0good t1).store "S1"
        + qty (onTradeInitiated 0 noFaults s0good t1).store "B1"
      = qty s0good "S1" + qty s0good "B1" := by
  have := settlement_conserves_quantity 0 noFaults s0good t1
    (by decide) (by decide) (by decide) (by decide) (by decide)
  simpa [t1] using this

/-- C8: settlement preserves the no-duplicates invariant of every
inventory item list: the buyer side uses `$addToSet`, which inserts only
items not already present, and the seller side uses `$pullAll`, which only
removes — so a store whose item lists are duplicate-free stays so, on every
path through the handler. -/
theorem settlement_preserves_items_nodup (now : Nat) (f : Faults) (s : Store) (t : Trade)
    (h : s.invNodup) : ((onTradeInitiated now f s t).store).invNodup := by
  have hbg : ∀ i : Inventory, i.items.Nodup → (buyerAdjust t i).items.Nodup :=
    fun i hi => addToSet_nodup t.items i.items hi
  have hsg : ∀ i : Inventory, i.items.Nodup → (sellerAdjust t i).items.Nodup :=
    fun i hi => pullAll_nodup i.items t.items hi
  unfold onTradeInitiated
  rw [tradeBody_eq]
  split_ifs
  · exact h
  · exact h
  · exact h
  · exact invNodup_updateOneInv _ _ _ hbg h
  · exact invNodup_updateOneInv _ _ _ hsg (invNodup_updateOneInv _ _ _ hbg h)

/-- Witness for C8 at the success example of the spec. -/
theorem settlement_preserves_items_nodup_witness :
    ((onTradeInitiated 0 noFaults s0good t1).store).invNodup :=
  settlement_preserves_items_nodup 0 noFaults s0good t1
    (by unfold Store.invNodup; decide)

/-- C9: the `updateCargo` controller answers 404 with no emission and no
store change when no cargo carries the requested `shipmentId`; on success
it answers 200 and emits exactly one `cargoUpdated` event carrying the
post-update record; a thrown update error answers 500 with no emission and
no store change. -/
theorem update_cargo_contract (fault : Bool) (upd : Cargo → Cargo) (s : Store)
    (sid : String) :
    ((updateCargo fault upd s sid).status = 404 →
      (updateCargo fault upd s sid).emitted = [] ∧
      (updateCargo fault upd s sid).store = s) ∧
    ((updateCargo fault upd s sid).status = 500 →
      (updateCargo fault upd s sid).emitted = [] ∧
      (updateCargo fault upd s sid).store = s) ∧
    (∀ c, findCargo s sid = some c → fault = false →
      (updateCargo fault upd s sid).status = 200 ∧
      (updateCargo fault upd s sid).emitted = [DomainEvent.cargoUpdated (upd c)]) ∧
    (findCargo s sid = none → fault = false →
      (updateCargo fault upd s sid).status = 404) ∧
    (fault = true → (updateCargo fault upd s sid).status = 500) := by
  cases fault
  · cases hfc : findCargo s sid with
    | none => simp [updateCargo, hfc]
    | some c => simp [updateCargo, hfc]
  · simp [updateCargo]

/-- Witness for C9: updating the one cargo of a concrete store answers
200 and emits the post-update record. -/
theorem update_cargo_contract_witness :
    (updateCargo false markTransit sWithCargo "shipment-t1").status = 200 ∧
    (updateCargo false markTransit sWithCargo "shipment-t1").emitted
      = [DomainEvent.cargoUpdated (markTransit c0)] :=
  (update_cargo_contract false markTransit sWithCargo "shipment-t1").2.2.1
    c0 (by decide) rfl

end InterGalCirc
